import Mathlib

/-! Shallow embedding of the authentication core of the service: app/auth.py
(credential hashing and verification, JWT issue and decode), app/db.py (the
users table), app/models.py (request and response shapes) and app/main.py
(registration, login, per-request identity resolution, the upload size gate).

The external libraries the core calls are modelled symbolically but
faithfully to their documented behaviour:

* passlib `CryptContext(schemes=["bcrypt"])`: `hash` salts and digests the
  password, after truncating its UTF-8 encoding to the first 72 bytes (bcrypt's
  input limit; passlib truncates silently since `truncate_error` is off by
  default); `verify` recomputes the digest under the salt embedded in the hash
  string and compares, but raises `UnknownHashError` when the hash string
  matches no configured scheme. The digest is modelled as the truncated
  password itself, i.e. digest collisions between distinct truncated inputs
  are neglected.
* python-jose `jwt`: `encode` produces a JWS whose MAC is bound to the signing
  key; `decode` raises a `JWTError` on a structurally malformed token, a header
  algorithm outside the allowed list, or a MAC that does not verify under the
  given key, and then runs its default registered-claims validation: an `exp`
  claim earlier than the current time raises `ExpiredSignatureError` (zero
  leeway; the check only runs when the claim is present), and `_validate_sub`
  — on by default, `verify_sub: True` — raises `JWTClaimsError` ("Subject
  must be a string.") for any present non-string `sub`. The claims this
  service signs carry an integer `sub` (the database row id), so its own
  tokens hit that rejection.
* the user directory runs SQLAlchemy core queries through the `databases`
  asyncpg backend. SQLAlchemy's Integer type installs no bind processor and
  asyncpg performs no implicit type conversion, so binding a string to the
  integer `id` column raises a data error at the driver; a `None` id compiles
  to `id IS NULL` and matches no row.

Clock readings (`datetime.utcnow()`) are passed explicitly as `now`, in seconds
since the epoch; random salts and database-assigned row ids are passed
explicitly as well. -/

/-- app/auth.py: `ALGORITHM = "HS256"`. -/
def ALGORITHM : String := "HS256"

/-- app/auth.py: `ACCESS_TOKEN_EXPIRE_DAYS = 7`. -/
def ACCESS_TOKEN_EXPIRE_DAYS : Int := 7

/-- app/auth.py: `os.getenv("JWT_SECRET", "devsecret")` as a function of the
environment variable's value (`none` when the variable is unset). -/
def JWT_SECRET_of (env : Option String) : String := env.getD "devsecret"

/-- The process-wide secret, in a deployment where the `JWT_SECRET` variable is
unset: the `getenv` call yields its fixed default. -/
def JWT_SECRET : String := JWT_SECRET_of none

/-- The UTF-8 encoding of a string, byte by byte. -/
def utf8Bytes (s : String) : List UInt8 := s.data.flatMap String.utf8EncodeChar

/-- bcrypt hashes only the first 72 bytes of the password; passlib applies this
truncation silently. -/
def bcryptTruncate (s : String) : List UInt8 := (utf8Bytes s).take 72

/-- The strings `verify_password` can receive as its `hashed` argument: a
well-formed bcrypt hash carrying its salt and the digest it stores (the digest
determined by the salt and the truncated password, collisions neglected), or
any other string, which passlib cannot identify as a hash of a configured
scheme. -/
inductive HashStr
  | bcrypt (salt : Nat) (digest : List UInt8)
  | malformed (s : String)
deriving DecidableEq, Repr

/-- The passlib exception that escapes `CryptContext.verify` on a hash string
it cannot identify. -/
inductive PasslibError
  | unknownHash
deriving DecidableEq, Repr

/-- app/auth.py `hash_password`: `pwd_context.hash(password)`, bcrypt under a
fresh random salt (the salt drawn by passlib is passed explicitly). -/
def hash_password (password : String) (salt : Nat) : HashStr :=
  HashStr.bcrypt salt (bcryptTruncate password)

/-- app/auth.py `verify_password`: `pwd_context.verify(plain, hashed)`, with no
exception handling around it: on a well-formed bcrypt hash it compares the
recomputed digest with the stored one; on a hash string passlib cannot
identify, `UnknownHashError` propagates to the caller. -/
def verify_password (plain : String) (hashed : HashStr) : Except PasslibError Bool :=
  match hashed with
  | HashStr.bcrypt _ digest => Except.ok (decide (bcryptTruncate plain = digest))
  | HashStr.malformed _ => Except.error PasslibError.unknownHash

/-- The JSON value a claims dict can hold under `sub` here: the integer this
service signs (the database row id), or a string, the only kind jose's
claims validation admits. `int` also stands for any other non-string JSON
value, which `_validate_sub` treats the same way. -/
inductive SubValue
  | int (i : Int)
  | str (s : String)
deriving DecidableEq, Repr

/-- A JWT claims dict, restricted to the keys this service ever reads or
writes: `sub`, `email`, `exp` (seconds since the epoch). A field holding
`none` models the key being absent from the dict. -/
structure Claims where
  sub : Option SubValue
  email : Option String
  exp : Option Int
deriving DecidableEq, Repr

/-- The empty claims dict, which Python's truthiness test treats as false. -/
def emptyClaims : Claims := { sub := none, email := none, exp := none }

/-- The strings token decoding can receive: a JWS compact serialization
carries the header's `alg`, the claims payload and a MAC, and `macKey` names
the key under which that MAC verifies (a forged signature is one whose
`macKey` differs from the decoder's key); anything else — including a
serialization whose MAC verifies under no key at all, such as a token with a
flipped payload bit — is `malformed`. -/
inductive TokenStr
  | jws (alg : String) (payload : Claims) (macKey : String)
  | malformed (s : String)
deriving DecidableEq, Repr

/-- jose exception kinds: every failure of `jwt.decode` is a `JWTError`
(`ExpiredSignatureError` and `JWTClaimsError` are subclasses). -/
inductive JWTError
  | malformedToken
  | algorithmNotAllowed
  | signatureMismatch
  | expired
  | claimsError
deriving DecidableEq, Repr

/-- jose `jwt.encode(claims, key, algorithm)`. No validation runs on encode,
so a non-string `sub` is signed without complaint. -/
def jose_encode (claims : Claims) (key : String) (alg : String) : TokenStr :=
  TokenStr.jws alg claims key

/-- jose `_validate_sub`, part of the default claims validation
(`verify_sub: True`): an absent `sub` passes; a present `sub` must be a
string, otherwise JWTClaimsError "Subject must be a string." is raised. -/
def validate_sub (payload : Claims) : Except JWTError Claims :=
  match payload.sub with
  | some (SubValue.int _) => Except.error JWTError.claimsError
  | _ => Except.ok payload

/-- jose `jwt.decode(token, key, algorithms)` at time `now`: raises on a
structurally malformed token, a header algorithm outside `algorithms`, or a
MAC that does not verify under `key`; then validates the registered claims —
a present `exp` with `exp < now` raises first, then `_validate_sub` rejects a
present non-string `sub`; otherwise the claims are returned. -/
def jose_decode (tok : TokenStr) (key : String) (algorithms : List String)
    (now : Int) : Except JWTError Claims :=
  match tok with
  | TokenStr.malformed _ => Except.error JWTError.malformedToken
  | TokenStr.jws alg payload macKey =>
    if alg ∈ algorithms then
      if macKey = key then
        match payload.exp with
        | some e =>
          if e < now then Except.error JWTError.expired else validate_sub payload
        | none => validate_sub payload
      else Except.error JWTError.signatureMismatch
    else Except.error JWTError.algorithmNotAllowed

/-- app/auth.py `create_access_token`: copies `data`, sets
`exp = utcnow() + (expires_delta or timedelta(days=ACCESS_TOKEN_EXPIRE_DAYS))`
(the delta in seconds here), and signs with `JWT_SECRET` under `ALGORITHM`. -/
def create_access_token (data : Claims) (expires_delta : Option Int) (now : Int) : TokenStr :=
  let expire := now + expires_delta.getD (ACCESS_TOKEN_EXPIRE_DAYS * 86400)
  jose_encode { data with exp := some expire } JWT_SECRET ALGORITHM

/-- app/auth.py `decode_token`: `jwt.decode(str(token), str(JWT_SECRET),
algorithms=[ALGORITHM])` inside `try: ... except JWTError: return None` — a
total function into an option, so no error reaches the caller. -/
def decode_token (tok : TokenStr) (now : Int) : Option Claims :=
  match jose_decode tok JWT_SECRET [ALGORITHM] now with
  | Except.ok payload => some payload
  | Except.error _ => none

/-- A row of the `users` table (app/db.py); `created_at` plays no part in the
authentication logic and is omitted. -/
structure User where
  id : Int
  email : String
  password_hash : HashStr
deriving DecidableEq, Repr

/-- The database-driver failure when a parameter cannot be bound to its
column's type: asyncpg performs no implicit conversion, so a string bound to
the integer `id` column raises a data error. -/
inductive DbError
  | bindTypeError
deriving DecidableEq, Repr

/-- app/main.py `get_user_by_email`: `fetch_one` of the rows whose email
matches — the first such row of the table, if any. -/
def get_user_by_email (db : List User) (email : String) : Option User :=
  db.find? (fun u => u.email == email)

/-- app/main.py `get_user_by_id`, called with `payload.get("sub")`. The `id`
column is Integer: a `None` uid compiles to `id IS NULL` and matches no row;
an integer uid matches by value; a string uid cannot be bound to the integer
column and the driver raises, which no handler catches. -/
def get_user_by_id (db : List User) (uid : Option SubValue) :
    Except DbError (Option User) :=
  match uid with
  | none => Except.ok none
  | some (SubValue.int i) => Except.ok (db.find? (fun u => u.id == i))
  | some (SubValue.str _) => Except.error DbError.bindTypeError

/-- app/models.py `RegisterRequest` (the email already validated
structurally). -/
structure RegisterRequest where
  email : String
  password : String
deriving DecidableEq, Repr

/-- app/models.py `LoginRequest`. -/
structure LoginRequest where
  email : String
  password : String
deriving DecidableEq, Repr

/-- The `user` dict the register and login handlers build: exactly an id and
an email, nothing else — in particular no password hash. -/
structure UserSummary where
  id : Int
  email : String
deriving DecidableEq, Repr

/-- app/models.py `TokenResponse`: a token plus the user summary. -/
structure TokenResponse where
  token : TokenStr
  user : UserSummary
deriving DecidableEq, Repr

/-- An exception no handler catches, escaping a request handler: passlib's
verify failure or the database driver's bind failure. -/
inductive PyException
  | passlib (e : PasslibError)
  | db (e : DbError)
deriving DecidableEq, Repr

/-- How a request handler ends when it does not return: an `HTTPException`
FastAPI maps to the carried status code, or an uncaught exception (which
FastAPI answers with a generic 500). -/
inductive EndpointError
  | httpException (statusCode : Nat) (detail : String)
  | unhandled (e : PyException)
deriving DecidableEq, Repr

/-- app/main.py `register`: look up the email; on a hit raise 409; otherwise
hash the password, insert the row (the database assigns `row_id`, passed
explicitly), issue a token for `{"sub": row_id, "email": req.email}` — the
integer row id signed as `sub` — and return it with the id/email summary.
The second component is the users table after the call, unchanged when the
handler raises, since the insert sits after the conflict check. -/
def register (db : List User) (req : RegisterRequest) (salt : Nat) (row_id : Int)
    (now : Int) : Except EndpointError TokenResponse × List User :=
  match get_user_by_email db req.email with
  | some _ => (Except.error (EndpointError.httpException 409 "Email already registered"), db)
  | none =>
    let hashed := hash_password req.password salt
    let db2 := db ++ [{ id := row_id, email := req.email, password_hash := hashed }]
    let token := create_access_token
      { sub := some (SubValue.int row_id), email := some req.email, exp := none } none now
    (Except.ok { token := token, user := { id := row_id, email := req.email } }, db2)

/-- app/main.py `login`: look up the email; raise 401 "Invalid credentials"
when no row matches and the same 401 when the password does not verify; on
success issue a token for the stored integer id and email. An exception
raised by `verify_password` (malformed stored hash) escapes the handler
unhandled. -/
def login (db : List User) (req : LoginRequest) (now : Int) :
    Except EndpointError TokenResponse :=
  match get_user_by_email db req.email with
  | none => Except.error (EndpointError.httpException 401 "Invalid credentials")
  | some user =>
    match verify_password req.password user.password_hash with
    | Except.error e => Except.error (EndpointError.unhandled (PyException.passlib e))
    | Except.ok b =>
      if b then
        Except.ok { token := create_access_token
                      { sub := some (SubValue.int user.id), email := some user.email,
                        exp := none } none now,
                    user := { id := user.id, email := user.email } }
      else Except.error (EndpointError.httpException 401 "Invalid credentials")

/-- Python `str.split()` with no argument: split on runs of whitespace and
drop empty pieces. -/
def pySplitAux : List Char → List Char → List String
  | [], acc => if acc.isEmpty then [] else [⟨acc.reverse⟩]
  | c :: cs, acc =>
    if c.isWhitespace then
      if acc.isEmpty then pySplitAux cs [] else ⟨acc.reverse⟩ :: pySplitAux cs []
    else pySplitAux cs (c :: acc)

/-- `auth.split()` of app/main.py `get_current_user`. -/
def pySplit (s : String) : List String := pySplitAux s.data []

/-- app/main.py `get_current_user`. `auth` is
`request.headers.get("Authorization")` — `none` when the header is absent —
and `readTok` is the fixed denotation of a token substring of the header as
the JWS value the jose library parses it to. Python's `if not auth:` is true
both for `None` and for the empty string, and `if not payload:` is true both
for `None` and for an empty claims dict; an exception from the id lookup
(string subject against the integer column) propagates uncaught. -/
def get_current_user (readTok : String → TokenStr) (db : List User)
    (auth : Option String) (now : Int) : Except EndpointError User :=
  match auth with
  | none => Except.error (EndpointError.httpException 401 "Missing Authorization header")
  | some a =>
    if a = "" then Except.error (EndpointError.httpException 401 "Missing Authorization header")
    else
      match pySplit a with
      | [scheme, tok] =>
        if scheme = "Bearer" then
          match decode_token (readTok tok) now with
          | none => Except.error (EndpointError.httpException 401 "Invalid token")
          | some payload =>
            if payload = emptyClaims then
              Except.error (EndpointError.httpException 401 "Invalid token")
            else
              match get_user_by_id db payload.sub with
              | Except.error e => Except.error (EndpointError.unhandled (PyException.db e))
              | Except.ok none => Except.error (EndpointError.httpException 401 "User not found")
              | Except.ok (some user) => Except.ok user
        else Except.error (EndpointError.httpException 401 "Invalid auth header")
      | _ => Except.error (EndpointError.httpException 401 "Invalid auth header")

/-- How far the body of app/main.py `upload_image` gets before any network
I/O: an `HTTPException`, or the POST of the uploaded bytes to the Hugging Face
inference endpoint. -/
inductive UploadStep
  | httpError (statusCode : Nat) (detail : String)
  | callHuggingFace (contents : List UInt8)
deriving DecidableEq, Repr

/-- app/main.py `upload_image`, after the request has passed
`get_current_user`: read the bytes, raise 400 when they exceed the 8 MiB
limit, raise 500 when `HUGGINGFACE_API_TOKEN` is falsy (unset or empty), and
otherwise reach the external call with the bytes. -/
def upload_image (hf_api_token : Option String) (contents : List UInt8) : UploadStep :=
  if contents.length > 8 * 1024 * 1024 then
    UploadStep.httpError 400 "File too large (8MB limit)"
  else
    match hf_api_token with
    | none => UploadStep.httpError 500 "HUGGINGFACE_API_TOKEN not configured"
    | some t =>
      if t = "" then UploadStep.httpError 500 "HUGGINGFACE_API_TOKEN not configured"
      else UploadStep.callHuggingFace contents

/-- Two distinct 73-byte passwords that agree on their first 72 bytes. -/
def longPw1 : String := ⟨List.replicate 72 'a' ++ ['x']⟩

/-- The second of the pair: same 72-byte prefix, different last byte. -/
def longPw2 : String := ⟨List.replicate 72 'a' ++ ['y']⟩

/-- C1: on a hash string passlib cannot identify, `verify_password`
propagates `UnknownHashError` to its caller instead of returning false — the
fail-closed behaviour the specification requires is absent from the code
(`pwd_context.verify` is called with no exception handling, unlike
`decode_token`, which does catch its library's errors). -/
theorem verify_password_propagates_unknown_hash :
    verify_password "password" (HashStr.malformed "not-a-bcrypt-hash") =
      Except.error PasslibError.unknownHash := rfl

/-- C7: with the `JWT_SECRET` environment variable unset, the `getenv` call
yields the fixed, well-known fallback "devsecret" and module loading
proceeds; nothing in the code treats the absent secret as a startup error. -/
theorem unset_jwt_secret_falls_back :
    JWT_SECRET_of none = "devsecret" ∧ JWT_SECRET = JWT_SECRET_of none :=
  ⟨rfl, rfl⟩

/-- C2: `decode_token` is total — it returns a payload or the sentinel
`none`, every `JWTError` being caught, so no error reaches its caller — and
it returns `none` whenever the token is structurally malformed, whenever its
header algorithm differs from `ALGORITHM`, whenever its MAC does not verify
under the service secret, and whenever its `exp` claim lies strictly before
the current time; the expiry conjunct holds for every payload, so an expired
token is rejected whatever its subject. -/
theorem decode_token_rejects (tok : TokenStr) (now : Int) :
    (decode_token tok now = none ∨ ∃ c, decode_token tok now = some c) ∧
    ((∃ s, tok = TokenStr.malformed s) → decode_token tok now = none) ∧
    (∀ alg payload macKey, tok = TokenStr.jws alg payload macKey → alg ≠ ALGORITHM →
        decode_token tok now = none) ∧
    (∀ alg payload macKey, tok = TokenStr.jws alg payload macKey → macKey ≠ JWT_SECRET →
        decode_token tok now = none) ∧
    (∀ alg payload macKey e, tok = TokenStr.jws alg payload macKey →
        payload.exp = some e → e < now → decode_token tok now = none) := by
  refine ⟨?_, ?_, ?_, ?_, ?_⟩
  · cases h : decode_token tok now with
    | none => exact Or.inl rfl
    | some c => exact Or.inr ⟨c, rfl⟩
  · rintro ⟨s, rfl⟩
    rfl
  · rintro alg payload macKey rfl halg
    simp [decode_token, jose_decode, halg]
  · rintro alg payload macKey rfl hkey
    by_cases halg : alg = ALGORITHM
    · simp [decode_token, jose_decode, halg, hkey]
    · simp [decode_token, jose_decode, halg]
  · rintro alg payload macKey e rfl hexp he
    by_cases halg : alg = ALGORITHM
    · by_cases hkey : macKey = JWT_SECRET
      · simp [decode_token, jose_decode, halg, hkey, hexp, he]
      · simp [decode_token, jose_decode, halg, hkey]
    · simp [decode_token, jose_decode, halg]

/-- A concrete run of `decode_token_rejects`: a malformed token, a token
under the `none` algorithm, a token signed with another key, and an expired
token each decode to the sentinel. -/
theorem decode_token_rejects_witness :
    decode_token (TokenStr.malformed "not.a.jwt") 0 = none ∧
    decode_token (TokenStr.jws "none" emptyClaims JWT_SECRET) 0 = none ∧
    decode_token (TokenStr.jws ALGORITHM emptyClaims "attacker-secret") 0 = none ∧
    decode_token (TokenStr.jws ALGORITHM
      { sub := none, email := none, exp := some 10 } JWT_SECRET) 20 = none :=
  ⟨(decode_token_rejects (TokenStr.malformed "not.a.jwt") 0).2.1 ⟨_, rfl⟩,
   (decode_token_rejects (TokenStr.jws "none" emptyClaims JWT_SECRET) 0).2.2.1
     "none" emptyClaims JWT_SECRET rfl (by decide),
   (decode_token_rejects (TokenStr.jws ALGORITHM emptyClaims "attacker-secret") 0).2.2.2.1
     ALGORITHM emptyClaims "attacker-secret" rfl (by decide),
   (decode_token_rejects (TokenStr.jws ALGORITHM
      { sub := none, email := none, exp := some 10 } JWT_SECRET) 20).2.2.2.2
     ALGORITHM { sub := none, email := none, exp := some 10 } JWT_SECRET 10 rfl rfl
     (by decide)⟩

/-- C3 fails on the code: register and login sign the integer database row id
as `sub`, and jose's default claims validation (`_validate_sub`, on by
default) raises JWTClaimsError "Subject must be a string." for a non-string
`sub`; `decode_token` catches it and returns the invalid sentinel. So a
token issued for (id, email, ttl) never decodes — at issuance time or any
other, whatever the ttl — where the claim and the spec's testable property
say the roundtrip succeeds with subject id. -/
theorem issued_token_fails_decode (id : Int) (email : Option String)
    (exp0 : Option Int) (expires_delta : Option Int) (now now2 : Int) :
    decode_token (create_access_token
      { sub := some (SubValue.int id), email := email, exp := exp0 }
      expires_delta now) now2 = none := by
  by_cases he : now + expires_delta.getD (ACCESS_TOKEN_EXPIRE_DAYS * 86400) < now2
  · simp [decode_token, create_access_token, jose_encode, jose_decode, he]
  · simp [decode_token, create_access_token, jose_encode, jose_decode, he, validate_sub]

/-- C8 fails as stated: bcrypt truncates passwords to their first 72 bytes,
so these two distinct passwords verify against each other's hashes. -/
theorem bcrypt_truncation_counterexample :
    longPw1 ≠ longPw2 ∧
    verify_password longPw1 (hash_password longPw2 0) = Except.ok true := by
  constructor
  · decide
  · rfl

/-- C8 amended: `verify(P, hash(P))` is true for every password; and
`verify(P1, hash(P2))` is false exactly when the two passwords differ within
their first 72 bytes — bcrypt hashes only that prefix, so distinct passwords
sharing it verify against each other's hashes. -/
theorem verify_hash_roundtrip (P P1 P2 : String) (salt salt2 : Nat)
    (h : bcryptTruncate P1 ≠ bcryptTruncate P2) :
    verify_password P (hash_password P salt) = Except.ok true ∧
    verify_password P1 (hash_password P2 salt2) = Except.ok false := by
  constructor
  · simp [verify_password, hash_password]
  · simp [verify_password, hash_password, h]

/-- A concrete run of `verify_hash_roundtrip`: "pw1" verifies against its own
hash, and "wrongpw" fails against the hash of "pw1". -/
theorem verify_hash_roundtrip_witness :
    verify_password "pw1" (hash_password "pw1" 3) = Except.ok true ∧
    verify_password "wrongpw" (hash_password "pw1" 3) = Except.ok false :=
  verify_hash_roundtrip "pw1" "wrongpw" "pw1" 3 3 (by decide)

/-- C10: an authenticated upload whose bytes exceed the 8 MiB limit is
rejected with status 400, and the Hugging Face call is never reached,
whatever the API token configuration. -/
theorem upload_rejects_oversize (hf_api_token : Option String) (contents : List UInt8)
    (h : contents.length > 8 * 1024 * 1024) :
    upload_image hf_api_token contents = UploadStep.httpError 400 "File too large (8MB limit)" ∧
    ∀ bs, upload_image hf_api_token contents ≠ UploadStep.callHuggingFace bs := by
  have h1 : upload_image hf_api_token contents =
      UploadStep.httpError 400 "File too large (8MB limit)" := by
    simp [upload_image, h]
  exact ⟨h1, fun bs hc => by rw [h1] at hc; exact UploadStep.noConfusion hc⟩

/-- A concrete run of `upload_rejects_oversize`: a payload of 8 MiB plus one
byte is rejected with 400 and never reaches the external call. -/
theorem upload_rejects_oversize_witness :
    upload_image (some "hf-token") (List.replicate (8 * 1024 * 1024 + 1) 0) =
      UploadStep.httpError 400 "File too large (8MB limit)" ∧
    ∀ bs, upload_image (some "hf-token") (List.replicate (8 * 1024 * 1024 + 1) 0) ≠
      UploadStep.callHuggingFace bs :=
  upload_rejects_oversize (some "hf-token") (List.replicate (8 * 1024 * 1024 + 1) 0)
    (by rw [List.length_replicate]; omega)

/-- C4: registration with an email already on file fails with 409 Conflict
and leaves the users table unchanged; otherwise the password is hashed,
exactly the one new row is inserted, and the response is a token bound to the
fresh id together with a user summary holding exactly the id and the email —
the summary type carries no password hash, so none can appear in the
response. -/
theorem register_conflict_or_creates (db : List User) (req : RegisterRequest)
    (salt : Nat) (row_id : Int) (now : Int) :
    ((∃ u, get_user_by_email db req.email = some u) →
        register db req salt row_id now =
          (Except.error (EndpointError.httpException 409 "Email already registered"), db)) ∧
    (get_user_by_email db req.email = none →
        register db req salt row_id now =
          (Except.ok { token := create_access_token
                          { sub := some (SubValue.int row_id), email := some req.email,
                            exp := none } none now,
                       user := { id := row_id, email := req.email } },
           db ++ [{ id := row_id, email := req.email,
                    password_hash := hash_password req.password salt }])) := by
  constructor
  · rintro ⟨u, hu⟩
    simp [register, hu]
  · intro h
    simp [register, h]

/-- A concrete run of `register_conflict_or_creates`: registering an email
already on file answers 409 and leaves the table as it was; registering a
fresh email inserts the one hashed row and returns the id/email summary. -/
theorem register_conflict_or_creates_witness :
    register [{ id := 1, email := "a@x.com", password_hash := hash_password "pw1" 0 }]
        { email := "a@x.com", password := "pw2" } 5 2 100 =
      (Except.error (EndpointError.httpException 409 "Email already registered"),
       [{ id := 1, email := "a@x.com", password_hash := hash_password "pw1" 0 }]) ∧
    register [] { email := "b@x.com", password := "pw2" } 5 1 100 =
      (Except.ok { token := create_access_token
                      { sub := some (SubValue.int 1), email := some "b@x.com",
                        exp := none } none 100,
                   user := { id := 1, email := "b@x.com" } },
       [{ id := 1, email := "b@x.com", password_hash := hash_password "pw2" 5 }]) :=
  ⟨(register_conflict_or_creates _ _ 5 2 100).1 ⟨_, rfl⟩,
   (register_conflict_or_creates _ _ 5 1 100).2 rfl⟩

/-- C5: a login with an email that matches no user and a login whose password
does not verify against the stored hash produce the very same failure value,
an HTTPException with status 401 and detail "Invalid credentials" — the two
causes are indistinguishable to the caller. -/
theorem login_failures_indistinguishable (db : List User) (req : LoginRequest) (now : Int) :
    (get_user_by_email db req.email = none →
        login db req now =
          Except.error (EndpointError.httpException 401 "Invalid credentials")) ∧
    (∀ u, get_user_by_email db req.email = some u →
        verify_password req.password u.password_hash = Except.ok false →
        login db req now =
          Except.error (EndpointError.httpException 401 "Invalid credentials")) := by
  constructor
  · intro h
    simp [login, h]
  · intro u hu hv
    simp [login, hu, hv]

/-- A concrete run of `login_failures_indistinguishable`: against a table
holding one user, an unknown email and a wrong password for the known email
yield the identical 401 response. -/
theorem login_failures_indistinguishable_witness :
    login [{ id := 1, email := "a@x.com", password_hash := hash_password "pw1" 0 }]
        { email := "b@x.com", password := "pw1" } 0 =
      Except.error (EndpointError.httpException 401 "Invalid credentials") ∧
    login [{ id := 1, email := "a@x.com", password_hash := hash_password "pw1" 0 }]
        { email := "a@x.com", password := "wrong" } 0 =
      Except.error (EndpointError.httpException 401 "Invalid credentials") :=
  ⟨(login_failures_indistinguishable _ _ 0).1 rfl,
   (login_failures_indistinguishable _ _ 0).2 _ rfl rfl⟩

/-- A payload `_validate_sub` lets through is returned unchanged and carries
no integer subject. -/
theorem validate_sub_ok (payload c : Claims) (h : validate_sub payload = Except.ok c) :
    c = payload ∧ ∀ i, payload.sub ≠ some (SubValue.int i) := by
  cases hs : payload.sub with
  | none =>
    simp [validate_sub, hs] at h
    exact ⟨h.symm, by simp [hs]⟩
  | some sv =>
    cases sv with
    | int i => simp [validate_sub, hs] at h
    | str s =>
      simp [validate_sub, hs] at h
      exact ⟨h.symm, by simp [hs]⟩

/-- A payload surviving decode never carries an integer subject: jose's
default claims validation rejects any present non-string `sub`. -/
theorem decode_token_sub_not_int (tok : TokenStr) (now : Int) (c : Claims)
    (h : decode_token tok now = some c) : ∀ i, c.sub ≠ some (SubValue.int i) := by
  cases tok with
  | malformed s => simp [decode_token, jose_decode] at h
  | jws alg payload macKey =>
    by_cases halg : alg = ALGORITHM
    · by_cases hkey : macKey = JWT_SECRET
      · subst halg
        subst hkey
        cases hexp : payload.exp with
        | none =>
          cases hv : validate_sub payload with
          | ok p =>
            have hp : p = c := by
              simp [decode_token, jose_decode, hexp, hv] at h
              exact h
            obtain ⟨hcp, hni⟩ := validate_sub_ok payload p hv
            intro i
            rw [← hp, hcp]
            exact hni i
          | error e => simp [decode_token, jose_decode, hexp, hv] at h
        | some e2 =>
          by_cases he : e2 < now
          · simp [decode_token, jose_decode, hexp, he] at h
          · cases hv : validate_sub payload with
            | ok p =>
              have hp : p = c := by
                simp [decode_token, jose_decode, hexp, he, hv] at h
                exact h
              obtain ⟨hcp, hni⟩ := validate_sub_ok payload p hv
              intro i
              rw [← hp, hcp]
              exact hni i
            | error e => simp [decode_token, jose_decode, hexp, he, hv] at h
      · simp [decode_token, jose_decode, halg, hkey] at h
    · simp [decode_token, jose_decode, halg] at h

/-- An id lookup returning a user was keyed by that user's integer id. -/
theorem get_user_by_id_ok_some (db : List User) (s : Option SubValue) (u : User)
    (h : get_user_by_id db s = Except.ok (some u)) : s = some (SubValue.int u.id) := by
  cases s with
  | none => simp [get_user_by_id] at h
  | some sv =>
    cases sv with
    | str st => simp [get_user_by_id] at h
    | int i =>
      have hf : db.find? (fun v => v.id == i) = some u := by
        simpa [get_user_by_id] using h
      have hp := List.find?_some hf
      have hi : u.id = i := by simpa using hp
      simp [hi]

/-- Resolution of an absent Authorization header. -/
theorem gcu_missing_none (readTok : String → TokenStr) (db : List User) (now : Int) :
    get_current_user readTok db none now =
      Except.error (EndpointError.httpException 401 "Missing Authorization header") := rfl

/-- Resolution of an empty Authorization header: `if not auth:` is true for
the empty string, so it takes the missing-header branch. -/
theorem gcu_missing_empty (readTok : String → TokenStr) (db : List User) (now : Int) :
    get_current_user readTok db (some "") now =
      Except.error (EndpointError.httpException 401 "Missing Authorization header") := rfl

/-- Resolution of a nonempty header that is not exactly `Bearer` plus one
token. -/
theorem gcu_invalid_header (readTok : String → TokenStr) (db : List User) (a : String)
    (now : Int) (hne : a ≠ "") (hnb : ¬ ∃ t, pySplit a = ["Bearer", t]) :
    get_current_user readTok db (some a) now =
      Except.error (EndpointError.httpException 401 "Invalid auth header") := by
  cases hps : pySplit a with
  | nil => simp [get_current_user, hne, hps]
  | cons s rest =>
    cases rest with
    | nil => simp [get_current_user, hne, hps]
    | cons t rest2 =>
      cases rest2 with
      | nil =>
        have hs : s ≠ "Bearer" := by
          intro h
          exact hnb ⟨t, by rw [hps, h]⟩
        simp [get_current_user, hne, hps, hs]
      | cons v rest3 => simp [get_current_user, hne, hps]

/-- Resolution when the token part does not decode. -/
theorem gcu_invalid_token (readTok : String → TokenStr) (db : List User) (a t : String)
    (now : Int) (hne : a ≠ "") (hps : pySplit a = ["Bearer", t])
    (hdec : decode_token (readTok t) now = none) :
    get_current_user readTok db (some a) now =
      Except.error (EndpointError.httpException 401 "Invalid token") := by
  simp [get_current_user, hne, hps, hdec]

/-- Resolution when the token decodes to the empty claims dict: `if not
payload:` is true for an empty dict, so the invalid-token branch is taken. -/
theorem gcu_empty_payload (readTok : String → TokenStr) (db : List User) (a t : String)
    (now : Int) (hne : a ≠ "") (hps : pySplit a = ["Bearer", t])
    (hdec : decode_token (readTok t) now = some emptyClaims) :
    get_current_user readTok db (some a) now =
      Except.error (EndpointError.httpException 401 "Invalid token") := by
  simp [get_current_user, hne, hps, hdec]

/-- Resolution when the decoded subject's lookup finds no row. -/
theorem gcu_user_not_found (readTok : String → TokenStr) (db : List User) (a t : String)
    (now : Int) (c : Claims) (hne : a ≠ "") (hps : pySplit a = ["Bearer", t])
    (hdec : decode_token (readTok t) now = some c) (hc : c ≠ emptyClaims)
    (hu : get_user_by_id db c.sub = Except.ok none) :
    get_current_user readTok db (some a) now =
      Except.error (EndpointError.httpException 401 "User not found") := by
  simp [get_current_user, hne, hps, hdec, hc, hu]

/-- Resolution when the id lookup raises at the database driver: the
exception escapes the handler uncaught. -/
theorem gcu_db_error (readTok : String → TokenStr) (db : List User) (a t : String)
    (now : Int) (c : Claims) (e : DbError) (hne : a ≠ "")
    (hps : pySplit a = ["Bearer", t]) (hdec : decode_token (readTok t) now = some c)
    (hc : c ≠ emptyClaims) (hu : get_user_by_id db c.sub = Except.error e) :
    get_current_user readTok db (some a) now =
      Except.error (EndpointError.unhandled (PyException.db e)) := by
  simp [get_current_user, hne, hps, hdec, hc, hu]

/-- Every failure of identity resolution surfaced as an HTTPException carries
status 401. -/
theorem gcu_errors_are_401 (readTok : String → TokenStr) (db : List User)
    (auth : Option String) (now : Int) :
    ∀ st d, get_current_user readTok db auth now =
        Except.error (EndpointError.httpException st d) → st = 401 := by
  intro st d h
  unfold get_current_user at h
  repeat' split at h
  all_goals simp_all

/-- Inversion of a successful resolution: the header split into `Bearer` plus
a token, the token decoded, and the subject's lookup returned the user. -/
theorem gcu_ok_inversion (readTok : String → TokenStr) (db : List User) (a : String)
    (now : Int) (u : User) (h : get_current_user readTok db (some a) now = Except.ok u) :
    ∃ tk c, pySplit a = ["Bearer", tk] ∧ decode_token (readTok tk) now = some c ∧
      get_user_by_id db c.sub = Except.ok (some u) := by
  by_cases hne : a = ""
  · subst hne
    exact absurd h (by simp [get_current_user])
  · cases hps : pySplit a with
    | nil => exact absurd h (by simp [get_current_user, hne, hps])
    | cons s rest =>
      cases rest with
      | nil => exact absurd h (by simp [get_current_user, hne, hps])
      | cons t2 rest2 =>
        cases rest2 with
        | cons v rest3 => exact absurd h (by simp [get_current_user, hne, hps])
        | nil =>
          by_cases hs : s = "Bearer"
          · subst hs
            cases hdec : decode_token (readTok t2) now with
            | none => exact absurd h (by simp [get_current_user, hne, hps, hdec])
            | some c =>
              by_cases hc : c = emptyClaims
              · exact absurd h (by simp [get_current_user, hne, hps, hdec, hc])
              · cases hu : get_user_by_id db c.sub with
                | error e =>
                  exact absurd h (by simp [get_current_user, hne, hps, hdec, hc, hu])
                | ok res =>
                  cases res with
                  | none =>
                    exact absurd h (by simp [get_current_user, hne, hps, hdec, hc, hu])
                  | some w =>
                    have hw : w = u := by
                      have h2 := h
                      simp [get_current_user, hne, hps, hdec, hc, hu] at h2
                      exact h2
                    subst hw
                    exact ⟨t2, c, rfl, hdec, hu⟩
          · exact absurd h (by simp [get_current_user, hne, hps, hs])

/-- Identity resolution never succeeds in this deployment: a successful
lookup needs an integer subject, and decode admits no integer subject. -/
theorem gcu_never_ok (readTok : String → TokenStr) (db : List User)
    (auth : Option String) (now : Int) (u : User) :
    get_current_user readTok db auth now ≠ Except.ok u := by
  intro h
  cases auth with
  | none => exact absurd h (by simp [get_current_user])
  | some a =>
    obtain ⟨tk, c, hps, hdec, hu⟩ := gcu_ok_inversion readTok db a now u h
    exact decode_token_sub_not_int (readTok tk) now c hdec u.id
      (get_user_by_id_ok_some db c.sub u hu)

/-- C6 amended: identity resolution answers 401 with the missing-header
detail on an absent header — and, `if not auth:` being true for the empty
string as well, on an empty one; 401 with the invalid-header detail on any
other header that is not exactly the scheme `Bearer` plus one token; 401 with
the invalid-token detail when the token part does not decode or decodes to
the empty claims dict; 401 with the user-not-found detail when the decoded
subject's lookup finds no row; every HTTPException failure carries status
401. The success branch would expose the looked-up user, but no request
reaches it: decode rejects the integer subjects the service itself signs, a
string subject fails the integer-column lookup at the database driver, and
an absent subject matches no row. -/
theorem get_current_user_gate (readTok : String → TokenStr) (db : List User)
    (auth : Option String) (now : Int) :
    (auth = none →
        get_current_user readTok db auth now =
          Except.error (EndpointError.httpException 401 "Missing Authorization header")) ∧
    (auth = some "" →
        get_current_user readTok db auth now =
          Except.error (EndpointError.httpException 401 "Missing Authorization header")) ∧
    (∀ a, auth = some a → a ≠ "" → (¬ ∃ t, pySplit a = ["Bearer", t]) →
        get_current_user readTok db auth now =
          Except.error (EndpointError.httpException 401 "Invalid auth header")) ∧
    (∀ a t, auth = some a → a ≠ "" → pySplit a = ["Bearer", t] →
        decode_token (readTok t) now = none →
        get_current_user readTok db auth now =
          Except.error (EndpointError.httpException 401 "Invalid token")) ∧
    (∀ a t, auth = some a → a ≠ "" → pySplit a = ["Bearer", t] →
        decode_token (readTok t) now = some emptyClaims →
        get_current_user readTok db auth now =
          Except.error (EndpointError.httpException 401 "Invalid token")) ∧
    (∀ a t c, auth = some a → a ≠ "" → pySplit a = ["Bearer", t] →
        decode_token (readTok t) now = some c → c ≠ emptyClaims →
        get_user_by_id db c.sub = Except.ok none →
        get_current_user readTok db auth now =
          Except.error (EndpointError.httpException 401 "User not found")) ∧
    (∀ st d, get_current_user readTok db auth now =
        Except.error (EndpointError.httpException st d) → st = 401) ∧
    (∀ u, get_current_user readTok db auth now ≠ Except.ok u) := by
  refine ⟨?_, ?_, ?_, ?_, ?_, ?_, ?_, ?_⟩
  · rintro rfl
    exact gcu_missing_none readTok db now
  · rintro rfl
    exact gcu_missing_empty readTok db now
  · rintro a rfl hne hnb
    exact gcu_invalid_header readTok db a now hne hnb
  · rintro a t rfl hne hps hdec
    exact gcu_invalid_token readTok db a t now hne hps hdec
  · rintro a t rfl hne hps hdec
    exact gcu_empty_payload readTok db a t now hne hps hdec
  · rintro a t c rfl hne hps hdec hc hu
    exact gcu_user_not_found readTok db a t now c hne hps hdec hc hu
  · exact gcu_errors_are_401 readTok db auth now
  · intro u
    exact gcu_never_ok readTok db auth now u

/-- C6 fails as stated on an empty Authorization header: the header is
present and does not consist of exactly two space-separated parts with the
scheme `Bearer`, so the claim calls for the invalid-header sub-reason, but
`if not auth:` treats the empty string like a missing header and the code
answers with the missing-header detail instead. -/
theorem empty_header_counterexample :
    (¬ ∃ t, pySplit "" = ["Bearer", t]) ∧
    get_current_user (fun s => TokenStr.malformed s) [] (some "") 0 =
      Except.error (EndpointError.httpException 401 "Missing Authorization header") ∧
    "Missing Authorization header" ≠ "Invalid auth header" := by
  refine ⟨?_, rfl, by decide⟩
  rintro ⟨t, ht⟩
  rw [show pySplit "" = [] from rfl] at ht
  exact List.noConfusion ht

/-- A concrete run of `get_current_user_gate`: a `Basic` header is rejected
as an invalid header; a token the service itself would issue — integer
subject, unexpired — is rejected as an invalid token even though its user is
on file; and a subjectless decodable token yields user-not-found. -/
theorem get_current_user_gate_witness :
    get_current_user (fun s => TokenStr.malformed s) [] (some "Basic abc") 0 =
      Except.error (EndpointError.httpException 401 "Invalid auth header") ∧
    get_current_user (fun _ => TokenStr.jws ALGORITHM
        { sub := some (SubValue.int 1), email := some "a@x.com", exp := some 604800 }
        JWT_SECRET)
      [{ id := 1, email := "a@x.com", password_hash := hash_password "pw1" 0 }]
      (some "Bearer tok") 0 =
      Except.error (EndpointError.httpException 401 "Invalid token") ∧
    get_current_user (fun _ => TokenStr.jws ALGORITHM
        { sub := none, email := some "e@x.com", exp := none } JWT_SECRET)
      [] (some "Bearer tok") 0 =
      Except.error (EndpointError.httpException 401 "User not found") := by
  refine ⟨(get_current_user_gate _ _ _ 0).2.2.1 "Basic abc" rfl (by decide) ?_,
    (get_current_user_gate _ _ _ 0).2.2.2.1 "Bearer tok" "tok" rfl (by decide) rfl rfl,
    (get_current_user_gate _ _ _ 0).2.2.2.2.2.1 "Bearer tok" "tok"
      { sub := none, email := some "e@x.com", exp := none } rfl (by decide) rfl rfl
      (by decide) rfl⟩
  rintro ⟨t, ht⟩
  rw [show pySplit "Basic abc" = ["Basic", "abc"] from rfl] at ht
  injection ht with hh _
  exact absurd hh (by decide)

/-- C9 amended: a Bearer token that decodes to a nonempty claims dict with no
`sub` fails with the user-not-found detail, the NULL id lookup matching no
row; a token that decodes to the empty claims dict is reported as an invalid
token instead, `if not payload:` being true for an empty dict; a decoded
string `sub` — the only present subject kind decode admits — fails the
integer-column id lookup at the database driver, an uncaught exception
rather than a 401; and resolution never succeeds, so no successful
resolution exists for the claim's final clause to constrain. -/
theorem resolution_sub_claims (readTok : String → TokenStr) (db : List User)
    (a t : String) (now : Int) (c : Claims) :
    (a ≠ "" → pySplit a = ["Bearer", t] → decode_token (readTok t) now = some c →
        c ≠ emptyClaims → c.sub = none →
        get_current_user readTok db (some a) now =
          Except.error (EndpointError.httpException 401 "User not found")) ∧
    (a ≠ "" → pySplit a = ["Bearer", t] → decode_token (readTok t) now = some c →
        c = emptyClaims →
        get_current_user readTok db (some a) now =
          Except.error (EndpointError.httpException 401 "Invalid token")) ∧
    (a ≠ "" → pySplit a = ["Bearer", t] → decode_token (readTok t) now = some c →
        (∃ s, c.sub = some (SubValue.str s)) →
        get_current_user readTok db (some a) now =
          Except.error (EndpointError.unhandled (PyException.db DbError.bindTypeError))) ∧
    (∀ u, get_current_user readTok db (some a) now ≠ Except.ok u) := by
  refine ⟨?_, ?_, ?_, ?_⟩
  · intro hne hps hdec hc hsub
    exact gcu_user_not_found readTok db a t now c hne hps hdec hc
      (by simp [get_user_by_id, hsub])
  · intro hne hps hdec hc
    subst hc
    exact gcu_empty_payload readTok db a t now hne hps hdec
  · rintro hne hps hdec ⟨s, hsub⟩
    have hc : c ≠ emptyClaims := by
      intro hch
      rw [hch] at hsub
      simp [emptyClaims] at hsub
    exact gcu_db_error readTok db a t now c DbError.bindTypeError hne hps hdec hc
      (by simp [get_user_by_id, hsub])
  · intro u
    exact gcu_never_ok readTok db (some a) now u

/-- C9 fails as stated when a token decodes successfully to the empty claims
dict: decoding succeeds and the claims contain no `sub`, yet the code's
`if not payload:` truthiness test reports the invalid-token sub-reason rather
than user-not-found. -/
theorem empty_claims_counterexample :
    decode_token (TokenStr.jws ALGORITHM emptyClaims JWT_SECRET) 0 = some emptyClaims ∧
    get_current_user (fun _ => TokenStr.jws ALGORITHM emptyClaims JWT_SECRET)
        [{ id := 1, email := "a@x.com", password_hash := hash_password "pw1" 0 }]
        (some "Bearer tok") 0 =
      Except.error (EndpointError.httpException 401 "Invalid token") ∧
    "Invalid token" ≠ "User not found" :=
  ⟨rfl, rfl, by decide⟩

/-- A concrete run of `resolution_sub_claims`: a decodable subjectless token
with nonempty claims yields user-not-found, and a decodable token with the
string subject "1" — the form a fixed issuer would sign — escapes as the
driver's bind error against the integer id column. -/
theorem resolution_sub_claims_witness :
    get_current_user (fun _ => TokenStr.jws ALGORITHM
        { sub := none, email := some "ghost@x.com", exp := none } JWT_SECRET)
      [{ id := 1, email := "a@x.com", password_hash := hash_password "pw1" 0 }]
      (some "Bearer tok") 0 =
      Except.error (EndpointError.httpException 401 "User not found") ∧
    get_current_user (fun _ => TokenStr.jws ALGORITHM
        { sub := some (SubValue.str "1"), email := none, exp := none } JWT_SECRET)
      [{ id := 1, email := "a@x.com", password_hash := hash_password "pw1" 0 }]
      (some "Bearer tok") 0 =
      Except.error (EndpointError.unhandled (PyException.db DbError.bindTypeError)) :=
  ⟨(resolution_sub_claims _ _ "Bearer tok" "tok" 0
      { sub := none, email := some "ghost@x.com", exp := none }).1
      (by decide) rfl rfl (by decide) rfl,
   (resolution_sub_claims _ _ "Bearer tok" "tok" 0
      { sub := some (SubValue.str "1"), email := none, exp := none }).2.2.1
      (by decide) rfl rfl ⟨"1", rfl⟩⟩
